import Mathlib

/-
Verification development for the shimanekb/project1-C key-value store.

The store appends CSV records to a data log file, keeps an in-memory
index from partial keys to log offsets, and flushes buffered commands
through a background log flusher and index flusher.  The Lean
definitions below are a shallow embedding of the Go sources:

 * a log file is modelled as the list of its CSV lines (`Rec`), with
   byte offsets computed from the byte lengths of the lines
   (keys and values in all runs of interest are ASCII, so Go's byte
   `len` coincides with `String.length`);
 * Go maps (the `SimpleCache` of store/cache.go, which wraps
   `map[string]interface{}` with get/add/remove) are modelled as
   association lists with `cacheGet` / `cacheAdd` / `cacheRemove`;
 * fallible operations return `Option`;
 * reads that do not hit the start of a record (mid-line seeks, or
   seeks past the end of the file) are modelled as read failures
   (`none`); every read performed in the theorems below is at a
   record boundary.
-/

namespace KvProof

/-- One line of the data log `data_records.csv`.  `key` and `value` are the
first two CSV fields; `third` is the third field (the size/tombstone
column).  `WritePut` (kvstore.go) always writes an empty third field,
`WriteDelete` writes the literal `Tomb`. -/
structure Rec where
  key : String
  value : String
  third : String
deriving DecidableEq

/-- The bytes of a log line, as written by `fmt.Sprintf("%s,%s,%s\n", ...)`
respectively `fmt.Sprintf("%s,%s,\n", ...)` (`WritePut` has an empty third
field).  Grouped to the right so that concatenation of the literal parts
reduces definitionally. -/
def recLine (r : Rec) : String :=
  r.key ++ ("," ++ (r.value ++ ("," ++ (r.third ++ "\n"))))

/-- Byte length of a log line: the three fields plus two commas and a
newline. -/
def lineLen (r : Rec) : Nat :=
  r.key.length + r.value.length + r.third.length + 3

theorem recLine_length (r : Rec) : (recLine r).length = lineLen r := by
  have h1 : (",").length = 1 := rfl
  have h2 : ("\n").length = 1 := rfl
  simp [recLine, lineLen, String.length_append, h1, h2]
  omega

/-- Size in bytes of the data log file, as reported by `file.Stat()`. -/
def fileSize (f : List Rec) : Nat :=
  (f.map lineLen).sum

/-- Model of seeking to byte `offset` of the log file and reading one CSV
record (`csv.NewReader(storeFile)` followed by `reader.Read()`).  A seek
to the start of a line yields that line's record; a seek at or past the
end of the file yields the `io.EOF` failure; a seek into the middle of a
line is modelled as a read failure as well (no read in this development
ever does that). -/
def readRecAt : List Rec → Nat → Option Rec
  | [], _ => none
  | r :: rs, off =>
    if off = 0 then some r
    else if off < lineLen r then none
    else readRecAt rs (off - lineLen r)

/-- Association-list model of `SimpleCache` (store/cache.go): `Get`. -/
def cacheGet {α : Type} : List (String × α) → String → Option α
  | [], _ => none
  | (k, v) :: rest, key => if k = key then some v else cacheGet rest key

/-- Association-list model of `SimpleCache`: `Add` (Go map assignment). -/
def cacheAdd {α : Type} : List (String × α) → String → α → List (String × α)
  | [], key, v => [(key, v)]
  | (k, w) :: rest, key, v =>
    if k = key then (k, v) :: rest else (k, w) :: cacheAdd rest key v

/-- Association-list model of `SimpleCache`: `Remove` (Go map `delete`). -/
def cacheRemove {α : Type} : List (String × α) → String → List (String × α)
  | [], _ => []
  | (k, w) :: rest, key =>
    if k = key then cacheRemove rest key else (k, w) :: cacheRemove rest key

theorem cacheGet_cacheAdd {α : Type} (m : List (String × α)) (k : String) (v : α) :
    cacheGet (cacheAdd m k v) k = some v := by
  induction m with
  | nil => simp [cacheAdd, cacheGet]
  | cons p rest ih =>
    by_cases h : p.1 = k
    · simp [cacheAdd, cacheGet, h]
    · simp [cacheAdd, cacheGet, h, ih]

/-- `getPartialKey` (kvstore.go lines 274-281 of the current revision, and
index.go): the first 15 bytes of the key when the key is longer than 16
bytes, the key itself otherwise. -/
def getPartialKey (key : String) : String :=
  if key.length > 16 then key.take 15 else key

end KvProof

namespace KvProof.DataLog

/-- `LogItem` of index/datalog.go: key, value and the size of the value.
The revision that adds an `offset` field carries it separately below. -/
structure LogItem where
  key : String
  value : String
  size : Nat
deriving DecidableEq

/-- One line of the file written by `LocalDataLog.AddLogItem`, which
formats `"%s,%s,%d,\n"`: key, value, the size rendered in decimal, and a
trailing empty fourth field. -/
structure DLRecord where
  key : String
  value : String
  size : Nat
deriving DecidableEq

/-- Byte length of an `AddLogItem` line: key, value, the decimal digits of
the size, two commas, the trailing comma and the newline. -/
def dlLineLen (r : DLRecord) : Nat :=
  r.key.length + r.value.length + (toString r.size).length + 4

/-- Size in bytes of the data log file, as reported by `file.Stat()`. -/
def dlSize (f : List DLRecord) : Nat :=
  (f.map dlLineLen).sum

/-- Seek to byte `offset` and read one CSV record, at record granularity
(mid-line and past-the-end reads are read failures; compare
`KvProof.readRecAt`). -/
def readDLAt : List DLRecord → Nat → Option DLRecord
  | [], _ => none
  | r :: rs, off =>
    if off = 0 then some r
    else if off < dlLineLen r then none
    else readDLAt rs (off - dlLineLen r)

/-- `LocalDataLog.AddLogItem` (index/datalog.go lines 86-107, and the
revision with offsets at lines 102-123): append the formatted line in
append mode, then return `fi.Size() - int64(length)` where `fi.Size()` is
the file size after the write, i.e. the byte offset of the first byte of
the appended record. -/
def AddLogItem (f : List DLRecord) (it : LogItem) : List DLRecord × Nat :=
  let f2 := f ++ [DLRecord.mk it.key it.value it.size]
  (f2, dlSize f2 - dlLineLen (DLRecord.mk it.key it.value it.size))

/-- `LocalDataLog.ReadLogItem` of the revision with the end-of-data check
(the first document of src/unnamed/part_003, lines 62-100).  The source
guards with `if stat.Size() >= offset { return nil, io.EOF }`; when that
branch is not taken the offset is strictly greater than the file size, the
seek lands past the end of the data, and `reader.Read()` reports `io.EOF`
as well, modelled through `readDLAt` returning `none`.  The size field is
parsed back with `strconv.ParseInt`; the stored field is the decimal
rendering of `size`, so the parse recovers `size`. -/
def ReadLogItem (f : List DLRecord) (offset : Nat) : Option LogItem :=
  if dlSize f ≥ offset then none
  else
    match readDLAt f offset with
    | none => none
    | some r => some (LogItem.mk r.key r.value r.size)

theorem readDLAt_none_of_lt (f : List DLRecord) (off : Nat) (h : dlSize f < off) :
    readDLAt f off = none := by
  induction f generalizing off with
  | nil => rfl
  | cons r rs ih =>
    have hlen : 0 < dlLineLen r := by unfold dlLineLen; omega
    have hsz : dlSize (r :: rs) = dlLineLen r + dlSize rs := by
      simp [dlSize]
    rw [readDLAt]
    rw [if_neg (by omega), if_neg (by omega)]
    exact ih (off - dlLineLen r) (by omega)

theorem ReadLogItem_always_none (f : List DLRecord) (off : Nat) :
    ReadLogItem f off = none := by
  unfold ReadLogItem
  by_cases h : dlSize f ≥ off
  · rw [if_pos h]
  · rw [if_neg h, readDLAt_none_of_lt f off (by omega)]

/-- Claim C6: `ReadLogItem(offset)` is claimed to report end-of-data
exactly when `offset ≥ file size` and to return the parsed record for
every smaller offset.  The source compares the other way around
(`stat.Size() >= offset`), so a read at offset 0 of a non-empty log — a
valid record — is reported as end-of-data: the code diverges from the
claim. -/
theorem c6_read_reports_eof_for_valid_offset :
    ReadLogItem [DLRecord.mk "a" "1" 1] 0 = none ∧
    0 < dlSize [DLRecord.mk "a" "1" 1] := by
  constructor
  · rfl
  · decide

/-- Claim C8: offsets returned by successive `AddLogItem` calls to the
same data log are strictly increasing: the second append starts where the
first record's bytes end. -/
theorem c8_offsets_strictly_increase (f : List DLRecord) (i1 i2 : LogItem) :
    (AddLogItem f i1).2 < (AddLogItem (AddLogItem f i1).1 i2).2 := by
  have h1 : 0 < dlLineLen (DLRecord.mk i1.key i1.value i1.size) := by
    unfold dlLineLen; omega
  simp only [AddLogItem, dlSize, List.map_append, List.sum_append,
    List.map_cons, List.map_nil, List.sum_cons, List.sum_nil]
  omega

end KvProof.DataLog

namespace KvProof

/-- `Command` (kvstore.go): the record carried from the engine to the log
flusher. -/
structure Command where
  type : String
  key : String
  value : String
deriving DecidableEq

/-- `KvPair` (kvstore.go, current revision): the record carried from the
log flusher to the index flusher. -/
structure KvPair where
  key : String
  tomb : Bool
  size : Nat
  offset : Nat
deriving DecidableEq

def PUT_COMMAND : String := "put"

def DEL_COMMAND : String := "del"

/-- The zero value of `Command`, received from a closed channel. -/
def nullCommand : Command := Command.mk "" "" ""

/-- The zero value of `KvPair`, received from a closed channel. -/
def nullKvPair : KvPair := KvPair.mk "" false 0 0

/-- Test used by `FlushLog` on each command: `cmd.Type == PUT_COMMAND`. -/
def isPutCmd (c : Command) : Bool := c.type == PUT_COMMAND

/-- Test used by `FlushLog` on each command: `cmd.Type == DEL_COMMAND`. -/
def isDelCmd (c : Command) : Bool := c.type == DEL_COMMAND

/-- `WritePut` (kvstore.go lines 468-483 of the current revision): append
`fmt.Sprintf("%s,%s,\n", key, value)` — key, value and an empty third CSV
field — and return the file size after the write minus the bytes written,
i.e. the offset of the appended record. -/
def WritePut (file : List Rec) (key value : String) : List Rec × Nat :=
  let file2 := file ++ [Rec.mk key value ""]
  (file2, fileSize file2 - lineLen (Rec.mk key value ""))

/-- `ReadKvItem` (kvstore.go lines 546-572): seek to `offset`, read one
CSV record, and return its first two fields `(record[0], record[1])`. -/
def ReadKvItem (file : List Rec) (offset : Nat) : Option (String × String) :=
  match readRecAt file offset with
  | none => none
  | some r => some (r.key, r.value)

/-- `ReadGet` (kvstore.go lines 209-223): scan the offsets in order; any
read failure aborts the whole lookup; the first record whose stored full
key equals the requested key supplies the value; an exhausted list is the
"Unable to read key value." error. -/
def ReadGet (file : List Rec) (key : String) : List Nat → Option String
  | [] => none
  | off :: rest =>
    match ReadKvItem file off with
    | none => none
    | some kv => if kv.1 = key then some kv.2 else ReadGet file key rest

/-- The scan loop of `RemoveIndexItem` (kvstore.go lines 574-606): read the
record at each offset; keep the offsets whose record key differs from the
key being removed.  On a read failure the source calls `log.Fatal` (which
aborts the process) — modelled as dropping the rest of the scan; no run in
this development reaches that branch. -/
def removeScan (file : List Rec) (key : String) : List Nat → List Nat
  | [] => []
  | off :: rest =>
    match ReadKvItem file off with
    | none => []
    | some kv =>
      if key = kv.1 then removeScan file key rest
      else off :: removeScan file key rest

/-- `RemoveIndexItem` (kvstore.go lines 574-606): when the partial key has
a bucket (and is non-empty), replace the bucket by the offsets whose log
record does not carry the removed key. -/
def RemoveIndexItem (file : List Rec) (cache : List (String × List Nat))
    (key : String) : List (String × List Nat) :=
  let pk := getPartialKey key
  match cacheGet cache pk with
  | none => cache
  | some offsets =>
    if pk = "" then cache
    else cacheAdd cache pk (removeScan file key offsets)

/-- `AddIndexItem` (kvstore.go lines 608-633): when the partial key already
has a bucket, first remove every offset resolving to this full key
(`RemoveIndexItem`), re-read the bucket, and append the new offset;
otherwise start a fresh single-offset bucket. -/
def AddIndexItem (file : List Rec) (cache : List (String × List Nat))
    (key : String) (offset : Nat) : List (String × List Nat) :=
  let pk := getPartialKey key
  match cacheGet cache pk with
  | some _ =>
    let cache2 := RemoveIndexItem file cache key
    let offsets := (cacheGet cache2 pk).getD []
    cacheAdd cache2 pk (offsets ++ [offset])
  | none => cacheAdd cache pk [offset]

/-- First loop of `FlushLog` (kvstore.go lines 414-426 of the current
revision): for each PUT command in batch order, append the record with
`WritePut`, add the returned offset to the live index with `AddIndexItem`,
and emit a `KvPair` with the byte size of the value.  Returns the updated
file, the updated index cache and the emitted pairs in order. -/
def flushPutPass : List Command → List Rec → List (String × List Nat) →
    List Rec × List (String × List Nat) × List KvPair
  | [], file, cache => (file, cache, [])
  | cmd :: rest, file, cache =>
    if isPutCmd cmd then
      let wr := WritePut file cmd.key cmd.value
      let cache2 := AddIndexItem wr.1 cache cmd.key wr.2
      let out := flushPutPass rest wr.1 cache2
      (out.1, out.2.1, KvPair.mk cmd.key false cmd.value.length wr.2 :: out.2.2)
    else flushPutPass rest file cache

/-- Second loop of `FlushLog` (kvstore.go lines 427-437): for each DEL
command in batch order, append a record with `WritePut(path, cmd.Key, "")`
and emit a tombstone `KvPair`.  (The source builds the pair as
`KvPair{cmd.Key, true, 0}`; the remaining field is its zero value.)  The
live index cache is not touched by this loop. -/
def flushDelPass : List Command → List Rec → List Rec × List KvPair
  | [], file => (file, [])
  | cmd :: rest, file =>
    if isDelCmd cmd then
      let wr := WritePut file cmd.key ""
      let out := flushDelPass rest wr.1
      (out.1, KvPair.mk cmd.key true 0 0 :: out.2)
    else flushDelPass rest file

/-- One batch of `FlushLog` (kvstore.go lines 403-449): the PUT pass over
the whole batch, then the DEL pass over the whole batch; the emitted pairs
are the PUT pairs followed by the DEL pairs (they are sent to the index
buffer in that order). -/
def FlushLog (cmds : List Command) (file : List Rec)
    (cache : List (String × List Nat)) :
    List Rec × List (String × List Nat) × List KvPair :=
  let p1 := flushPutPass cmds file cache
  let p2 := flushDelPass cmds p1.1
  (p2.1, p1.2.1, p1.2.2 ++ p2.2)

def LOG_FLUSH_THRESHOLD : Nat := 10

/-- State of a running `KvStore` (current revision of kvstore.go):
the LRU value cache, the index cache (partial key to offset list), the
bytes of `data_records.csv` disguised as records, the commands buffered in
the log channel and in the flusher's slice, and the `KvPair`s emitted so
far towards the index flusher.  The model covers runs that emit fewer
than `INDEX_FLUSH_THRESHOLD` (100) pairs, so the index flusher acts only
at shutdown. -/
structure KvStoreState where
  vcache : List (String × String)
  index : List (String × List Nat)
  file : List Rec
  pending : List Command
  pairs : List KvPair
deriving DecidableEq

/-- A flush of the commands accumulated by the log flusher. -/
def doFlush (s : KvStoreState) : KvStoreState :=
  let out := FlushLog s.pending s.file s.index
  KvStoreState.mk s.vcache out.2.1 out.1 [] (s.pairs ++ out.2.2)

/-- A command enters the log channel; the flusher accumulates it and
flushes when its batch reaches `LOG_FLUSH_THRESHOLD` (the deterministic
schedule in which the flusher keeps up with the producer, which is the
schedule the claims discuss). -/
def enqueueCommand (s : KvStoreState) (c : Command) : KvStoreState :=
  let s2 := KvStoreState.mk s.vcache s.index s.file (s.pending ++ [c]) s.pairs
  if s2.pending.length = LOG_FLUSH_THRESHOLD then doFlush s2 else s2

/-- `KvStore.Put` (kvstore.go lines 202-207 of the current revision): add
the value to the value cache and enqueue a PUT command; nothing is written
to the log synchronously. -/
def KvStorePut (s : KvStoreState) (key value : String) : KvStoreState :=
  let s2 := KvStoreState.mk (cacheAdd s.vcache key value) s.index s.file
    s.pending s.pairs
  enqueueCommand s2 (Command.mk PUT_COMMAND key value)

/-- `KvStore.Del` (kvstore.go lines 256-272 of the current revision):
remove the key from the value cache, remove its offsets from the index
cache by full-key match against the log, and enqueue a DEL command. -/
def KvStoreDel (s : KvStoreState) (key : String) : KvStoreState :=
  let s2 := KvStoreState.mk (cacheRemove s.vcache key)
    (RemoveIndexItem s.file s.index key) s.file s.pending s.pairs
  enqueueCommand s2 (Command.mk DEL_COMMAND key "")

/-- `KvStore.Get` (kvstore.go lines 225-254 of the current revision):
value-cache hit wins; on a miss, fetch the offsets of the partial key from
the index cache and scan them with `ReadGet`; a missing bucket is the
"Offsets not in index!." error. -/
def KvStoreGet (s : KvStoreState) (key : String) : Option String :=
  match cacheGet s.vcache key with
  | some v => some v
  | none =>
    match cacheGet s.index (getPartialKey key) with
    | none => none
    | some offs => ReadGet s.file key offs

/-- An engine-level operation of a session. -/
inductive Op where
  | put (key value : String)
  | del (key : String)
deriving DecidableEq

def stepOp (s : KvStoreState) : Op → KvStoreState
  | Op.put k v => KvStorePut s k v
  | Op.del k => KvStoreDel s k

def runOps (s : KvStoreState) (ops : List Op) : KvStoreState :=
  ops.foldl stepOp s

/-- A store freshly created on an empty storage directory. -/
def initState : KvStoreState :=
  KvStoreState.mk [] [] [] [] []

/-- The `lastOffset` update of `FlushIndex` (kvstore.go lines 340-345 of
the current revision): each non-tombstone pair with a non-empty key
overwrites `lastOffset` with its offset. -/
def lastOffsetStep (acc : Nat) (p : KvPair) : Nat :=
  if !p.tomb && p.key ≠ "" then p.offset else acc

/-- `KvStore.Shutdown` under the model's schedule: closing the command
channel delivers the zero `Command` to the log flusher, which flushes its
remaining batch; the index flusher then receives the remaining pairs plus
the zero `KvPair` and writes the checkpoint, whose `lastOffset` starts
from the previous checkpoint (none for a fresh directory, hence 0) and is
overwritten by each live pair.  Returns the final state and the
checkpoint's `lastOffset` (the restart path of `LoadIndex`, lines 493-521,
reads nothing else from the checkpoint). -/
def ShutdownRun (s : KvStoreState) : KvStoreState × Nat :=
  let s2 := doFlush (KvStoreState.mk s.vcache s.index s.file
    (s.pending ++ [nullCommand]) s.pairs)
  (s2, (s2.pairs ++ [nullKvPair]).foldl lastOffsetStep 0)

/-- Seek of `LoadIndexData` (kvstore.go lines 635-681): position the file
at `startingOffset` and return the remaining records.  A seek beyond the
data or into the middle of a line yields no records to replay. -/
def seekRecs : List Rec → Nat → Option (List Rec)
  | f, 0 => some f
  | [], _ + 1 => none
  | r :: rs, off + 1 =>
    if off + 1 < lineLen r then none
    else seekRecs rs (off + 1 - lineLen r)

/-- The tombstone test of the replay loop in `LoadIndexData` (kvstore.go
lines 650-677): a record is a deletion exactly when its value field equals
its third CSV field (`if value != tomb` takes the live branch). -/
def isTombRecord (r : Rec) : Bool := r.value == r.third

/-- The replay loop of `LoadIndexData`: `position` starts at 0 after the
seek (so replayed offsets are relative to `startingOffset`, not to the
start of the file); live records are added to the index under their
partial key via `AddIndexItem` — whose verification reads go to the full
file — and tombstones remove the record's full key from the cache map. -/
def replayRecs (fullFile : List Rec) :
    List Rec → Nat → List (String × List Nat) → List (String × List Nat)
  | [], _, cache => cache
  | r :: rest, pos, cache =>
    let cache2 :=
      if isTombRecord r then cacheRemove cache r.key
      else AddIndexItem fullFile cache r.key pos
    replayRecs fullFile rest (pos + lineLen r) cache2

/-- `LoadIndexData` (kvstore.go lines 635-681). -/
def LoadIndexData (startingOffset : Nat) (cache : List (String × List Nat))
    (file : List Rec) : List (String × List Nat) :=
  match seekRecs file startingOffset with
  | none => cache
  | some tail => replayRecs file tail 0 cache

/-- `LoadIndex` at restart (kvstore.go lines 493-522 of the current
revision): when a checkpoint file exists, only its `lastOffset` is read —
the `keyOffsets` are not loaded into the cache — and `LoadIndexData`
replays the log from that offset into the empty index cache the store was
created with. -/
def LoadIndex (cpExists : Bool) (cpLastOffset : Nat) (file : List Rec) :
    List (String × List Nat) :=
  let startOffset := if cpExists then cpLastOffset else 0
  LoadIndexData startOffset [] file

/-- `NewKvStore` on an existing storage directory followed by a `Get`: the
restarted store has a fresh value cache, the index produced by
`LoadIndex`, and the log file on disk. -/
def restartGet (file : List Rec) (cpLastOffset : Nat) (key : String) :
    Option String :=
  KvStoreGet (KvStoreState.mk [] (LoadIndex true cpLastOffset file) file [] [])
    key

/-- The session of claim C1's failing input: `Put("a","1"); Put("b","2");
Shutdown` on a fresh storage directory. -/
def c1Session : KvStoreState × Nat :=
  ShutdownRun (runOps initState [Op.put "a" "1", Op.put "b" "2"])

/-- Claim C1: after `Put("a","1"); Put("b","2"); Shutdown`, both records
are in the log and the checkpoint's `lastOffset` is 5 (the offset of the
`b` record), yet the restarted store fails the `Get` of `"a"`, whose last
operation was a `Put` — restart recovery loses keys.  `LoadIndex` reads
only `lastOffset` from the checkpoint (never its `keyOffsets`), and the
replay of `LoadIndexData` counts positions from the seek point instead of
the file start, so every record before `lastOffset` vanishes from the
index (and the replayed ones point at wrong offsets: `Get("b")` fails
too). -/
theorem c1_restart_loses_final_put :
    c1Session.1.file = [Rec.mk "a" "1" "", Rec.mk "b" "2" ""] ∧
    c1Session.2 = 5 ∧
    restartGet c1Session.1.file c1Session.2 "a" = none ∧
    restartGet c1Session.1.file c1Session.2 "b" = none := by
  decide

/-- The operations of claim C2's failing input: `Put k v1`, `Del k`, then
eight more `Put`s of an unrelated key so that the log flusher's batch
reaches `LOG_FLUSH_THRESHOLD` and flushes — the flush the claim says must
preserve the delete. -/
def c2Ops : List Op :=
  [Op.put "k" "v1", Op.del "k"] ++ List.replicate 8 (Op.put "x" "1")

/-- Claim C2: immediately after `Del("k")` the `Get` fails as claimed, but
once the log flusher flushes the batch containing the earlier buffered
`Put("k","v1")` and the `Del("k")`, `Get("k")` returns `"v1"` again: the
PUT pass of `FlushLog` calls `AddIndexItem` on the live index for the
already-deleted key, and the DEL pass never removes it. -/
theorem c2_flush_resurrects_deleted_key :
    KvStoreGet (runOps initState [Op.put "k" "v1", Op.del "k"]) "k" = none ∧
    KvStoreGet (runOps initState c2Ops) "k" = some "v1" := by
  decide

/-- The record a flushed PUT command appends to the log. -/
def putRecOf (c : Command) : Rec := Rec.mk c.key c.value ""

/-- The record a flushed DEL command appends to the log. -/
def delRecOf (c : Command) : Rec := Rec.mk c.key "" ""

/-- The log records claim C3 predicts for a batch: one record per command
in exactly enqueue order. -/
def claimedBatchRecs (cmds : List Command) : List Rec :=
  cmds.map (fun c => if isPutCmd c then putRecOf c else delRecOf c)

theorem flushPutPass_file (cmds : List Command) :
    ∀ (file : List Rec) (cache : List (String × List Nat)),
      (flushPutPass cmds file cache).1 =
        file ++ (cmds.filter isPutCmd).map putRecOf := by
  induction cmds with
  | nil => intro file cache; simp [flushPutPass]
  | cons c rest ih =>
    intro file cache
    by_cases hc : isPutCmd c
    · simp [flushPutPass, hc, ih, WritePut, putRecOf, List.filter_cons]
    · simp [flushPutPass, hc, ih, List.filter_cons]

theorem flushPutPass_pairs (cmds : List Command) :
    ∀ (file : List Rec) (cache : List (String × List Nat)),
      ((flushPutPass cmds file cache).2.2).map (fun p => (p.key, p.tomb)) =
        (cmds.filter isPutCmd).map (fun c => (c.key, false)) := by
  induction cmds with
  | nil => intro file cache; simp [flushPutPass]
  | cons c rest ih =>
    intro file cache
    by_cases hc : isPutCmd c
    · simp [flushPutPass, hc, ih, List.filter_cons]
    · simp [flushPutPass, hc, ih, List.filter_cons]

theorem flushDelPass_file (cmds : List Command) :
    ∀ (file : List Rec),
      (flushDelPass cmds file).1 =
        file ++ (cmds.filter isDelCmd).map delRecOf := by
  induction cmds with
  | nil => intro file; simp [flushDelPass]
  | cons c rest ih =>
    intro file
    by_cases hc : isDelCmd c
    · simp [flushDelPass, hc, ih, WritePut, delRecOf, List.filter_cons]
    · simp [flushDelPass, hc, ih, List.filter_cons]

theorem flushDelPass_pairs (cmds : List Command) :
    ∀ (file : List Rec),
      ((flushDelPass cmds file).2).map (fun p => (p.key, p.tomb)) =
        (cmds.filter isDelCmd).map (fun c => (c.key, true)) := by
  induction cmds with
  | nil => intro file; simp [flushDelPass]
  | cons c rest ih =>
    intro file
    by_cases hc : isDelCmd c
    · simp [flushDelPass, hc, ih, List.filter_cons]
    · simp [flushDelPass, hc, ih, List.filter_cons]

/-- Counterexample to claim C3: in the batch `[Del "a", Put "b" "v"]` the
flusher appends the `b` record before the `a` tombstone and emits the
pairs in the same reversed order, not in the enqueue order the claim
states. -/
theorem c3_batch_not_in_enqueue_order :
    (FlushLog [Command.mk DEL_COMMAND "a" "", Command.mk PUT_COMMAND "b" "v"]
        [] []).1 =
      [Rec.mk "b" "v" "", Rec.mk "a" "" ""] ∧
    (FlushLog [Command.mk DEL_COMMAND "a" "", Command.mk PUT_COMMAND "b" "v"]
        [] []).1 ≠
      claimedBatchRecs
        [Command.mk DEL_COMMAND "a" "", Command.mk PUT_COMMAND "b" "v"] ∧
    ((FlushLog [Command.mk DEL_COMMAND "a" "", Command.mk PUT_COMMAND "b" "v"]
        [] []).2.2).map (fun p => (p.key, p.tomb)) =
      [("b", false), ("a", true)] := by
  decide

/-- Claim C3 as amended: for every batch, `FlushLog` appends the records
of the batch's PUT commands in enqueue order followed by the records of
its DEL commands in enqueue order, and emits the `KvPair`s in that same
put-pass-then-del-pass order — not in overall enqueue order. -/
theorem c3_amended_put_pass_then_del_pass (cmds : List Command)
    (file : List Rec) (cache : List (String × List Nat)) :
    (FlushLog cmds file cache).1 =
      file ++ (cmds.filter isPutCmd).map putRecOf
           ++ (cmds.filter isDelCmd).map delRecOf ∧
    ((FlushLog cmds file cache).2.2).map (fun p => (p.key, p.tomb)) =
      (cmds.filter isPutCmd).map (fun c => (c.key, false))
        ++ (cmds.filter isDelCmd).map (fun c => (c.key, true)) := by
  constructor
  · simp [FlushLog, flushDelPass_file, flushPutPass_file, List.append_assoc]
  · simp [FlushLog, flushPutPass_pairs, flushDelPass_pairs]

/-- Counterexample to claim C4: the tombstone record `FlushLog` writes for
`Del("k")` is `k,,\n` — an empty value and an empty third field — which is
neither of the two forms `k,,0,\n` and `k,,Tomb\n` the claim allows; and
the replay classifier accepts neither of those two forms as a deletion
(it compares the value field with the third field). -/
theorem c4_tombstone_form_counterexample :
    (FlushLog [Command.mk DEL_COMMAND "k" ""] [] []).1 = [Rec.mk "k" "" ""] ∧
    recLine (Rec.mk "k" "" "") = "k,,\n" ∧
    recLine (Rec.mk "k" "" "") ≠ "k,,0,\n" ∧
    recLine (Rec.mk "k" "" "") ≠ "k,,Tomb\n" ∧
    isTombRecord (Rec.mk "k" "" "0") = false ∧
    isTombRecord (Rec.mk "k" "" "Tomb") = false := by
  decide

/-- Claim C4 as amended: every tombstone record the DEL pass of `FlushLog`
writes has the single form `key,,\n` (value and third field both empty),
and the replay of `LoadIndexData` classifies a record as a deletion
exactly when its value field equals its third field — which accepts the
written form and rejects both forms named by the claim. -/
theorem c4_amended_tombstone_form (cmds : List Command) (file : List Rec)
    (k : String) :
    (flushDelPass cmds file).1 =
      file ++ (cmds.filter isDelCmd).map (fun c => Rec.mk c.key "" "") ∧
    recLine (Rec.mk k "" "") = k ++ ",,\n" ∧
    isTombRecord (Rec.mk k "" "") = true ∧
    isTombRecord (Rec.mk k "" "0") = false ∧
    isTombRecord (Rec.mk k "" "Tomb") = false := by
  refine ⟨flushDelPass_file cmds file, rfl, rfl, rfl, rfl⟩

/-- Claim C5: the offset-list scan of `ReadGet` produces a value only from
a record whose stored full key equals the requested key.  Hence for two
distinct keys `k1 ≠ k2` — with colliding partial keys or not — `Get(k1)`
never returns a value out of a record written for `k2`: the value it
returns is the value field of a record keyed `k1`. -/
theorem c5_scan_returns_only_full_key_matches (file : List Rec)
    (key : String) (offs : List Nat) (v : String)
    (h : ReadGet file key offs = some v) :
    ∃ off, off ∈ offs ∧ ReadKvItem file off = some (key, v) := by
  induction offs with
  | nil => simp [ReadGet] at h
  | cons off rest ih =>
    simp only [ReadGet] at h
    rcases hr : ReadKvItem file off with _ | kv
    · rw [hr] at h; simp at h
    · rw [hr] at h
      dsimp only at h
      by_cases hk : kv.1 = key
      · rw [if_pos hk] at h
        refine ⟨off, List.mem_cons_self off rest, ?_⟩
        rw [hr]
        have hv : kv.2 = v := by injection h
        rw [← hk, ← hv]
      · rw [if_neg hk] at h
        obtain ⟨o, ho, h2⟩ := ih h
        exact ⟨o, List.mem_cons_of_mem off ho, h2⟩

/-- Witness for claim C5 at a concrete store: two keys with the same
partial key, with `ReadGet` scanning both offsets. -/
theorem c5_scan_returns_only_full_key_matches_witness :
    ∃ off, off ∈ [0, 5] ∧
      ReadKvItem [Rec.mk "a" "1" "", Rec.mk "b" "2" ""] off =
        some ("b", "2") :=
  c5_scan_returns_only_full_key_matches
    [Rec.mk "a" "1" "", Rec.mk "b" "2" ""] "b" [0, 5] "2" (by decide)

/-- Claim C10: a `Put(k, "")` is flushed as the record `k,,\n` — the very
record the DEL pass writes for a `Del(k)` — and the replay classifier
takes it for a deletion (its value field equals its third field).
Consequently, after `Put(k, ""); Shutdown` and a restart, `Get(k)` fails
not-found even though `k` was never deleted. -/
theorem c10_empty_put_indistinguishable_from_tombstone (k : String)
    (file : List Rec) (cache : List (String × List Nat)) :
    (flushPutPass [Command.mk PUT_COMMAND k ""] file cache).1 =
      file ++ [Rec.mk k "" ""] ∧
    (flushDelPass [Command.mk DEL_COMMAND k ""] file).1 =
      file ++ [Rec.mk k "" ""] ∧
    recLine (Rec.mk k "" "") = k ++ ",,\n" ∧
    isTombRecord (Rec.mk k "" "") = true ∧
    restartGet (ShutdownRun (runOps initState [Op.put k ""])).1.file
      (ShutdownRun (runOps initState [Op.put k ""])).2 k = none := by
  refine ⟨?_, ?_, rfl, rfl, ?_⟩
  · simp [flushPutPass, flushDelPass, isPutCmd, WritePut]
  · simp [flushDelPass, isDelCmd, WritePut]
  · simp [restartGet, ShutdownRun, runOps, stepOp, KvStorePut, enqueueCommand,
      doFlush, FlushLog, flushPutPass, flushDelPass, isPutCmd, isDelCmd,
      PUT_COMMAND, DEL_COMMAND, WritePut, fileSize, lastOffsetStep,
      nullCommand, nullKvPair, LoadIndex, LoadIndexData, seekRecs, replayRecs,
      isTombRecord, cacheRemove, cacheAdd, cacheGet, KvStoreGet, initState,
      LOG_FLUSH_THRESHOLD, Nat.sub_self]

end KvProof

namespace KvProof.OldRev

open KvProof

/-- State of the earlier revision of the engine (src/store/kvstore.go):
its index cache maps a full key to a single offset, and its `Put` touches
the log file directly. -/
structure OldKvStoreState where
  vcache : List (String × String)
  indexCache : List (String × Nat)
  file : List Rec
  pending : List Command
deriving DecidableEq

/-- `KvStore.Put` of src/store/kvstore.go lines 74-87: synchronously
append the record with `WritePut`, record the returned offset in the
index cache, add the value to the value cache, and enqueue a PUT command
for the log flusher. -/
def OldPut (s : OldKvStoreState) (key value : String) : OldKvStoreState :=
  let wr := WritePut s.file key value
  OldKvStoreState.mk (cacheAdd s.vcache key value)
    (cacheAdd s.indexCache key wr.2) wr.1
    (s.pending ++ [Command.mk PUT_COMMAND key value])

/-- The flush loop of `FlushLog` in src/store/kvstore.go lines 266-305: a
single pass over the batch in order, appending a record per PUT and a
tombstone per DEL and emitting a pair for each.  (That revision's
`KvPair` has no size field; the size component is 0 here.) -/
def OldFlushLog : List Command → List Rec → List Rec × List KvPair
  | [], file => (file, [])
  | cmd :: rest, file =>
    if isPutCmd cmd then
      let wr := WritePut file cmd.key cmd.value
      let out := OldFlushLog rest wr.1
      (out.1, KvPair.mk cmd.key false 0 wr.2 :: out.2)
    else if isDelCmd cmd then
      let wr := WritePut file cmd.key ""
      let out := OldFlushLog rest wr.1
      (out.1, KvPair.mk cmd.key true 0 0 :: out.2)
    else OldFlushLog rest file

/-- A fresh store of the earlier revision. -/
def oldInitState : OldKvStoreState :=
  OldKvStoreState.mk [] [] [] []

/-- Claim C7: `Put("k","v")` is claimed to leave the data log untouched
and to result in exactly one log record, appended by the flusher.  In the
cited revision the `Put` call itself appends the record synchronously,
and the flusher appends it again when the buffered command is flushed:
the log holds two copies of the record for a single accepted `Put`. -/
theorem c7_put_appends_synchronously_and_twice :
    (OldPut oldInitState "k" "v").file = [Rec.mk "k" "v" ""] ∧
    (OldPut oldInitState "k" "v").file ≠ oldInitState.file ∧
    (OldFlushLog (OldPut oldInitState "k" "v").pending
        (OldPut oldInitState "k" "v").file).1 =
      [Rec.mk "k" "v" "", Rec.mk "k" "v" ""] := by
  decide

end KvProof.OldRev

namespace KvProof.LocalIndexRev

open KvProof

/-- `IndexItem` of index/index.go: the partial key of the item's full key
(source field `partialKey`), the byte offset into the log, and the size
of the value. -/
structure IndexItem where
  partKey : String
  offset : Nat
  size : Nat
deriving DecidableEq

/-- `NewIndexItem` (index/index.go lines 18-21). -/
def NewIndexItem (key : String) (offset size : Nat) : IndexItem :=
  IndexItem.mk (getPartialKey key) offset size

/-- The `indexItems` map of `LocalIndex` (`map[string][]IndexItem`). -/
abbrev IndexItemsMap := List (String × List IndexItem)

/-- `LocalIndex.Get` (index/index.go lines 100-104): look up the bucket of
the key's partial key. -/
def LocalIndexGet (m : IndexItemsMap) (key : String) :
    Option (List IndexItem) :=
  cacheGet m (getPartialKey key)

/-- `LocalIndex.Put` of src/index/index.go lines 106-113, verbatim: the
bucket is fetched (an empty slice is made when absent), the slice is
passed to `append` with no further elements — `append(indexItems)` —
and the result is never stored back into `i.indexItems`, so the map is
returned unchanged. -/
def LocalIndexPut (m : IndexItemsMap) (it : IndexItem) : IndexItemsMap :=
  let items := (cacheGet m it.partKey).getD []
  let _ := items ++ ([] : List IndexItem)
  m

/-- `LocalIndex.Put` of the revision in src/unnamed/part_000 lines
115-126: the same fetch, but the item is appended and the bucket is
stored back into the map. -/
def LocalIndexPutRevB (m : IndexItemsMap) (it : IndexItem) : IndexItemsMap :=
  let items := (cacheGet m it.partKey).getD []
  cacheAdd m it.partKey (items ++ [it])

/-- Claim C9: `Put` is claimed to append the item to the bucket of its
partial key, creating the bucket when absent, so that a `Get` afterwards
sees the item as the bucket's last element.  In src/index/index.go the
`Put` is a no-op — the appended slice is dropped — so the bucket stays
absent and `Get` finds nothing. -/
theorem c9_index_put_is_noop :
    LocalIndexPut [] (IndexItem.mk "k" 0 1) = ([] : IndexItemsMap) ∧
    LocalIndexGet (LocalIndexPut [] (IndexItem.mk "k" 0 1)) "k" = none := by
  decide

/-- The revision of `Put` in src/unnamed/part_000 does satisfy the
claim: the bucket of the item's partial key afterwards ends with the new
item. -/
theorem localIndexPutRevB_appends (m : IndexItemsMap) (it : IndexItem) :
    cacheGet (LocalIndexPutRevB m it) it.partKey =
      some (((cacheGet m it.partKey).getD []) ++ [it]) := by
  simp [LocalIndexPutRevB, cacheGet_cacheAdd]

end KvProof.LocalIndexRev
